import Mathlib

/-!
Verification of the notebook title/output extraction logic in
src/python/notebook_parser.py.

The Python module is shallowly embedded: JSON values become the inductive
type Json, Python exceptions that the parsing code can raise become the
type PyErr, and each Python function becomes a Lean function of the same
name returning Except PyErr when the Python code can raise.  The
functions parse_jupyter_notebook, extract_title_from_source and
extract_output_from_outputs model the module after json.load has produced
the document value, so their input is a Json value rather than a file path.
-/

namespace NotebookParser

/-- A JSON value, as produced by json.load.  Objects are modelled as
association lists with distinct keys, which is what a parsed Python dict is. -/
inductive Json where
  | null : Json
  | bool (b : Bool) : Json
  | num (n : Int) : Json
  | str (s : String) : Json
  | arr (elems : List Json) : Json
  | obj (fields : List (String × Json)) : Json

/-- The Python exceptions the extraction code can raise: AttributeError
from calling .get on a non-dict, TypeError from joining non-strings or
iterating a non-iterable. -/
inductive PyErr where
  | attributeError : PyErr
  | typeError : PyErr
  deriving DecidableEq, Repr

/-- One extracted result entry, the Python dict with keys title and output
appended at line 43 of notebook_parser.py. -/
structure Entry where
  title : String
  output : String
  deriving DecidableEq, Repr

/-- Python d.get(k, default): look the key up when the receiver is a dict,
raise AttributeError otherwise. -/
def pyGet (v : Json) (k : String) (dflt : Json) : Except PyErr Json :=
  match v with
  | Json.obj fields => Except.ok ((fields.lookup k).getD dflt)
  | _ => Except.error PyErr.attributeError

/-- Python truthiness of a JSON value: None, False, 0, empty string, empty
list and empty dict are falsy. -/
def pyTruthy : Json → Bool
  | Json.null => false
  | Json.bool b => b
  | Json.num n => n != 0
  | Json.str s => !s.data.isEmpty
  | Json.arr l => !l.isEmpty
  | Json.obj l => !l.isEmpty

/-- Python equality of a JSON value with a string literal: only an equal
string compares equal. -/
def pyEqStr (v : Json) (s : String) : Bool :=
  match v with
  | Json.str t => t == s
  | _ => false

/-- Python whitespace for str.strip (the ASCII part; the claims involve
only ASCII text). -/
def isPySpace (c : Char) : Bool :=
  c = ' ' || c = '\t' || c = '\n' || c = '\r' || c = '\x0b' || c = '\x0c'

/-- Python str.strip(): drop whitespace from both ends. -/
def pyStrip (s : String) : String :=
  String.mk (((s.data.dropWhile isPySpace).reverse.dropWhile isPySpace).reverse)

/-- Python s.join(iterable) on a list of JSON values: every element must be
a string, otherwise TypeError; the separator goes between elements. -/
def joinJsonSep (sep : String) : List Json → Except PyErr String
  | [] => Except.ok ""
  | Json.str s :: rest =>
    match rest with
    | [] => Except.ok s
    | _ :: _ =>
      match joinJsonSep sep rest with
      | Except.error e => Except.error e
      | Except.ok r => Except.ok (s ++ sep ++ r)
  | _ :: _ => Except.error PyErr.typeError

/-- Python sep.join(v) for a JSON value v: a list joins its elements, a
string joins its characters, a dict joins its keys, anything else raises
TypeError. -/
def pyJoin (sep : String) : Json → Except PyErr String
  | Json.arr xs => joinJsonSep sep xs
  | Json.str s => joinJsonSep sep (s.data.map fun c => Json.str (String.mk [c]))
  | Json.obj fields => joinJsonSep sep (fields.map fun kv => Json.str kv.1)
  | _ => Except.error PyErr.typeError

/-- A parameter character of the ANSI escape regex of click.utils.strip_ansi,
whose pattern is ESC, a left bracket, zero or more of semicolon, question
mark or digit, then one ASCII letter. -/
def isAnsiParam (c : Char) : Bool :=
  c = ';' || c = '?' || (decide ('0' ≤ c) && decide (c ≤ '9'))

/-- After ESC and a left bracket, skip parameter characters; on an ASCII
letter the escape sequence ends and the remainder is returned, anything
else means the regex does not match here. -/
def findAnsiEnd : List Char → Option (List Char)
  | [] => none
  | c :: rest =>
    if isAnsiParam c then findAnsiEnd rest
    else if c.isAlpha then some rest
    else none

/-- One left-to-right pass of re.sub with the strip_ansi pattern.  The fuel
argument only bounds the recursion; every step consumes at least one
character, so fuel equal to the length of the input is always enough. -/
def stripAnsiFuel : Nat → List Char → List Char
  | 0, l => l
  | _ + 1, [] => []
  | fuel + 1, '\x1b' :: '[' :: rest =>
    match findAnsiEnd rest with
    | some rest2 => stripAnsiFuel fuel rest2
    | none => '\x1b' :: stripAnsiFuel fuel ('[' :: rest)
  | fuel + 1, c :: rest => c :: stripAnsiFuel fuel rest

/-- click.utils.strip_ansi, imported as remove_ansi_codes at line 6 of
notebook_parser.py: delete every match of the ANSI escape regex. -/
def remove_ansi_codes (s : String) : String :=
  String.mk (stripAnsiFuel s.data.length s.data)

/-- The characters before the first newline, or none when the input has no
newline at all. -/
def takeLine : List Char → Option (List Char)
  | [] => none
  | c :: rest => if c = '\n' then some [] else (takeLine rest).map (c :: ·)

/-- Whether the regex of extract_title_from_source, three double quotes then
one or more non-newline characters then a newline, matches at the head of
the character list; returns the group, the non-empty title line. -/
def headTitle : List Char → Option (List Char)
  | '"' :: '"' :: '"' :: rest =>
    match takeLine rest with
    | some (c :: cs) => some (c :: cs)
    | _ => none
  | _ => none

/-- re.search for the docstring pattern: try every position from the left
and return the group of the first position that matches. -/
def findTitle : List Char → Option (List Char)
  | [] => none
  | c :: rest =>
    match headTitle (c :: rest) with
    | some t => some t
    | none => findTitle rest

/-- Lines 50 to 67 of notebook_parser.py: search for the docstring pattern
and return the stripped first group, or the empty string when there is no
match. -/
def extract_title_from_source (source_text : String) : String :=
  match findTitle source_text.data with
  | some t => pyStrip (String.mk t)
  | none => ""

/-- The fragments one output record contributes to the output_texts buffer,
lines 81 to 105 of notebook_parser.py. -/
def outputFragments (output : Json) : Except PyErr (List Json) :=
  match pyGet output "output_type" (Json.str "") with
  | Except.error e => Except.error e
  | Except.ok ot =>
    if pyEqStr ot "stream" then
      match pyGet output "text" (Json.arr []) with
      | Except.error e => Except.error e
      | Except.ok t =>
        match t with
        | Json.arr xs => Except.ok xs
        | x => Except.ok [x]
    else if pyEqStr ot "execute_result" then
      match pyGet output "data" (Json.obj []) with
      | Except.error e => Except.error e
      | Except.ok d =>
        match pyGet d "text/plain" (Json.arr []) with
        | Except.error e => Except.error e
        | Except.ok tp =>
          match tp with
          | Json.arr xs => Except.ok xs
          | x => Except.ok [x]
    else if pyEqStr ot "error" then
      match pyGet output "traceback" (Json.arr []) with
      | Except.error e => Except.error e
      | Except.ok tb =>
        if pyTruthy tb then
          match pyJoin "\n" tb with
          | Except.error e => Except.error e
          | Except.ok s => Except.ok [Json.str s]
        else Except.ok []
    else Except.ok []

/-- The loop of extract_output_from_outputs over the records, accumulating
the output_texts buffer in order; the first raised exception aborts. -/
def collectOutputTexts : List Json → Except PyErr (List Json)
  | [] => Except.ok []
  | o :: os =>
    match outputFragments o with
    | Except.error e => Except.error e
    | Except.ok fs =>
      match collectOutputTexts os with
      | Except.error e => Except.error e
      | Except.ok rest => Except.ok (fs ++ rest)

/-- Lines 69 to 109 of notebook_parser.py: accumulate the fragments of every
record, join them with the empty separator, strip whitespace, then remove
ANSI codes.  Iterating a non-empty string or dict hands a string to the
loop body, whose .get call raises AttributeError; iterating anything else
non-iterable raises TypeError. -/
def extract_output_from_outputs (outputs : Json) : Except PyErr String :=
  match outputs with
  | Json.arr os =>
    match collectOutputTexts os with
    | Except.error e => Except.error e
    | Except.ok texts =>
      match joinJsonSep "" texts with
      | Except.error e => Except.error e
      | Except.ok raw => Except.ok (remove_ansi_codes (pyStrip raw))
  | Json.str s => if s.isEmpty then Except.ok "" else Except.error PyErr.attributeError
  | Json.obj fs => if fs.isEmpty then Except.ok "" else Except.error PyErr.attributeError
  | _ => Except.error PyErr.typeError

/-- The append guard at line 42 of notebook_parser.py: the entry is kept
only when both title and output are truthy; truthiness of a Python string
is being non-empty. -/
def guardEntry (title output_text : String) : Option Entry :=
  if title != "" && output_text != "" then
    some { title := title, output := output_text }
  else none

/-- One iteration of the cell loop, lines 24 to 46 of notebook_parser.py:
none models the continue branches and the failed final guard. -/
def processCell (cell : Json) : Except PyErr (Option Entry) :=
  match pyGet cell "cell_type" Json.null with
  | Except.error e => Except.error e
  | Except.ok ct =>
    if !pyEqStr ct "code" then Except.ok none
    else
      match pyGet cell "source" (Json.arr []) with
      | Except.error e => Except.error e
      | Except.ok source =>
        if !pyTruthy source then Except.ok none
        else
          match
            (match source with
             | Json.arr xs => joinJsonSep "" xs
             | Json.str s => Except.ok s
             | _ => Except.error PyErr.typeError) with
          | Except.error e => Except.error e
          | Except.ok source_text =>
            match pyGet cell "outputs" (Json.arr []) with
            | Except.error e => Except.error e
            | Except.ok outputs =>
              match extract_output_from_outputs outputs with
              | Except.error e => Except.error e
              | Except.ok output_text =>
                Except.ok (guardEntry (extract_title_from_source source_text) output_text)

/-- The cell loop of parse_jupyter_notebook: process the cells in order and
collect the kept entries, aborting on the first exception. -/
def processCells : List Json → Except PyErr (List Entry)
  | [] => Except.ok []
  | c :: cs =>
    match processCell c with
    | Except.error e => Except.error e
    | Except.ok none => processCells cs
    | Except.ok (some entry) =>
      match processCells cs with
      | Except.error e => Except.error e
      | Except.ok rest => Except.ok (entry :: rest)

/-- Lines 8 to 48 of notebook_parser.py after json.load: read the cells key
with default empty list and iterate it.  Iterating a non-empty string or
dict hands a string to the loop body, whose .get raises AttributeError. -/
def parse_jupyter_notebook (notebook : Json) : Except PyErr (List Entry) :=
  match pyGet notebook "cells" (Json.arr []) with
  | Except.error e => Except.error e
  | Except.ok cells =>
    match cells with
    | Json.arr cs => processCells cs
    | Json.str s => if s.isEmpty then Except.ok [] else Except.error PyErr.attributeError
    | Json.obj fs => if fs.isEmpty then Except.ok [] else Except.error PyErr.attributeError
    | _ => Except.error PyErr.typeError

/-- One left-to-right pass of Python str.replace for a non-empty pattern:
at a position where the pattern is a prefix, emit the replacement and skip
the pattern, otherwise emit the character.  The fuel argument only bounds
the recursion; every step consumes at least one character, so fuel equal to
the length of the input is always enough. -/
def replaceFuel (pat rep : List Char) : Nat → List Char → List Char
  | 0, l => l
  | _ + 1, [] => []
  | fuel + 1, c :: rest =>
    if pat.isPrefixOf (c :: rest) && !pat.isEmpty then
      rep ++ replaceFuel pat rep fuel (List.drop (pat.length - 1) rest)
    else c :: replaceFuel pat rep fuel rest

/-- Python s.replace(pat, rep): replace every non-overlapping occurrence
from the left; the empty pattern inserts the replacement before every
character and at the end. -/
def pyReplace (s pat rep : String) : String :=
  if pat.data.isEmpty then
    String.mk (rep.data ++ (s.data.map (fun c => c :: rep.data)).flatten)
  else String.mk (replaceFuel pat.data rep.data s.data.length s.data)

/-- Line 124 of notebook_parser.py: the default output path of
save_parsed_results is notebook_path.replace applied to the .ipynb pattern
and the _parsed.json replacement. -/
def default_output_path (notebook_path : String) : String :=
  pyReplace notebook_path ".ipynb" "_parsed.json"

/-- The docstring regex matches at the head of l with group t: three double
quotes, then the non-empty newline-free line t, then a newline. -/
def matchHead (l : List Char) (t : List Char) : Prop :=
  t ≠ [] ∧ '\n' ∉ t ∧ ∃ r, l = '"' :: '"' :: '"' :: (t ++ '\n' :: r)

/-- The docstring regex matches at position i of l with group t. -/
def titleMatchAt (l : List Char) (i : Nat) (t : List Char) : Prop :=
  matchHead (l.drop i) t

/-!  Helper lemmas. -/

/-- Joining an all-empty list of string fragments with the empty separator
gives the empty string. -/
theorem joinJsonSep_all_empty (texts : List Json) (h : ∀ x ∈ texts, x = Json.str "") :
    joinJsonSep "" texts = Except.ok "" := by
  induction texts with
  | nil => rfl
  | cons a rest ih =>
    have ha : a = Json.str "" := h a (List.mem_cons_self a rest)
    subst ha
    cases rest with
    | nil => rfl
    | cons b rs =>
      have hr := ih (fun x hx => h x (List.mem_cons_of_mem _ hx))
      show (match joinJsonSep "" (b :: rs) with
            | Except.error e => Except.error e
            | Except.ok r => Except.ok ("" ++ "" ++ r)) = Except.ok ""
      rw [hr]
      rfl

/-- The accumulator form of String.intercalate unfolds one step. -/
theorem intercalate_go (sep : String) :
    ∀ (bs : List String) (acc b : String),
      String.intercalate.go acc sep (b :: bs) = acc ++ sep ++ String.intercalate.go b sep bs := by
  intro bs
  induction bs with
  | nil => intro acc b; rfl
  | cons c cs ih =>
    intro acc b
    show String.intercalate.go (acc ++ sep ++ b) sep (c :: cs) = _
    rw [ih (acc ++ sep ++ b) c, ih b c]
    simp [String.append_assoc]

/-- String.intercalate on a list of at least two elements unfolds one step. -/
theorem intercalate_cons₂ (sep a b : String) (l : List String) :
    String.intercalate sep (a :: b :: l) = a ++ sep ++ String.intercalate sep (b :: l) := by
  show String.intercalate.go a sep (b :: l) = _
  rw [intercalate_go sep l a b]
  rfl

/-- Python sep.join on a list of strings is String.intercalate. -/
theorem joinJsonSep_map_str (sep : String) :
    ∀ ts : List String, joinJsonSep sep (ts.map Json.str) = Except.ok (String.intercalate sep ts) := by
  intro ts
  induction ts with
  | nil => rfl
  | cons t rest ih =>
    cases rest with
    | nil => rfl
    | cons u us =>
      simp only [List.map_cons] at ih ⊢
      show (match joinJsonSep sep (Json.str u :: List.map Json.str us) with
            | Except.error e => Except.error e
            | Except.ok r => Except.ok (t ++ sep ++ r)) =
          Except.ok (String.intercalate sep (t :: u :: us))
      rw [ih, intercalate_cons₂]

/-- A record whose fragments are empty contributes nothing to the buffer. -/
theorem collect_skip (os1 os2 : List Json) (x : Json) (hx : outputFragments x = Except.ok []) :
    collectOutputTexts (os1 ++ x :: os2) = collectOutputTexts (os1 ++ os2) := by
  induction os1 with
  | nil =>
    simp only [List.nil_append, collectOutputTexts]
    rw [hx]
    cases hres : collectOutputTexts os2 with
    | error e => rfl
    | ok rest => simp
  | cons o os ih =>
    simp only [List.cons_append, collectOutputTexts]
    have ih2 : collectOutputTexts (List.append os (x :: os2))
        = collectOutputTexts (List.append os os2) := ih
    rw [ih2]

/-- A kept entry passed the final guard, so both fields are non-empty. -/
theorem guardEntry_some (t o : String) (e : Entry) (h : guardEntry t o = some e) :
    e.title ≠ "" ∧ e.output ≠ "" := by
  unfold guardEntry at h
  split at h
  next hc =>
    injection h with h
    subst h
    rw [Bool.and_eq_true] at hc
    exact ⟨bne_iff_ne.mp hc.1, bne_iff_ne.mp hc.2⟩
  next => cases h

/-- Every entry processCell emits passed the guard. -/
theorem processCell_some_nonempty (cell : Json) (e : Entry)
    (h : processCell cell = Except.ok (some e)) : e.title ≠ "" ∧ e.output ≠ "" := by
  unfold processCell at h
  repeat' split at h
  all_goals simp only [Except.ok.injEq, reduceCtorEq] at h
  exact guardEntry_some _ _ _ h

/-- Every entry the cell loop collects has non-empty fields. -/
theorem processCells_nonempty (cs : List Json) (res : List Entry)
    (h : processCells cs = Except.ok res) : ∀ e, e ∈ res → e.title ≠ "" ∧ e.output ≠ "" := by
  induction cs generalizing res with
  | nil =>
    simp only [processCells] at h
    injection h with h
    subst h
    intro e he
    cases he
  | cons c cs ih =>
    simp only [processCells] at h
    cases hc : processCell c with
    | error e => rw [hc] at h; cases h
    | ok oe =>
      rw [hc] at h
      cases oe with
      | none => exact ih res h
      | some entry =>
        cases hr : processCells cs with
        | error e => rw [hr] at h; cases h
        | ok rest =>
          rw [hr] at h
          injection h with h
          subst h
          intro e he
          rcases List.mem_cons.mp he with rfl | hmem
          · exact processCell_some_nonempty c e hc
          · exact ih rest hr e hmem

/-- replaceFuel on the empty list gives the empty list whatever the fuel. -/
theorem replaceFuel_nil (pat rep : List Char) : ∀ fuel, replaceFuel pat rep fuel [] = [] := by
  intro fuel
  cases fuel with
  | zero => rfl
  | succ f => rfl

/-- When the non-empty pattern occurs only as the final suffix, one replace
pass rewrites exactly that suffix. -/
theorem replaceFuel_suffix (pat rep : List Char) (hp : pat ≠ []) :
    ∀ (pre : List Char) (fuel : Nat), (pre ++ pat).length ≤ fuel →
      (∀ i, i < pre.length → pat.isPrefixOf ((pre ++ pat).drop i) = false) →
      replaceFuel pat rep fuel (pre ++ pat) = pre ++ rep := by
  intro pre
  induction pre with
  | nil =>
    intro fuel hfuel h
    rcases pat with _ | ⟨c, pt⟩
    · exact absurd rfl hp
    · cases fuel with
      | zero => simp at hfuel
      | succ f =>
        simp only [List.nil_append] at hfuel ⊢
        show replaceFuel (c :: pt) rep (f + 1) (c :: pt) = [] ++ rep
        simp only [replaceFuel]
        rw [if_pos]
        · simp only [List.length_cons, Nat.add_sub_cancel, List.drop_length, replaceFuel_nil,
            List.append_nil, List.nil_append]
        · simp [List.isPrefixOf_iff_prefix]
  | cons c pre2 ih =>
    intro fuel hfuel h
    cases fuel with
    | zero => simp at hfuel
    | succ f =>
      have h0 := h 0 (by simp)
      simp only [List.drop_zero, List.cons_append] at h0
      show (if pat.isPrefixOf (c :: (pre2 ++ pat)) && !pat.isEmpty then
              rep ++ replaceFuel pat rep f (List.drop (pat.length - 1) (pre2 ++ pat))
            else c :: replaceFuel pat rep f (pre2 ++ pat)) = c :: (pre2 ++ rep)
      rw [h0]
      simp only [Bool.false_and, Bool.false_eq_true, if_false]
      congr 1
      refine ih f ?_ ?_
      · simp only [List.cons_append, List.length_cons] at hfuel
        omega
      · intro i hi
        have := h (i + 1) (by simpa using Nat.succ_lt_succ hi)
        simpa using this

/-!  Claim C1. -/

/-- C1 counterexample: a document that is a valid JSON object with no
top-level cells collection does not fail with any error; the call returns
the empty result list, contradicting the claim that it fails with a
ParseError rather than returning a result. -/
theorem parse_missing_cells_counterexample :
    parse_jupyter_notebook (Json.obj []) = Except.ok [] := rfl

/-- C1 amended: for every input document that is a valid JSON object with
no top-level cells collection, parse_jupyter_notebook succeeds and returns
the empty result sequence; no error is raised. -/
theorem parse_missing_cells_returns_empty (fields : List (String × Json))
    (h : fields.lookup "cells" = none) :
    parse_jupyter_notebook (Json.obj fields) = Except.ok [] := by
  unfold parse_jupyter_notebook
  simp only [pyGet]
  rw [h]
  rfl

/-- Witness for C1 amended at a concrete document. -/
theorem parse_missing_cells_returns_empty_witness :
    parse_jupyter_notebook (Json.obj [("nbformat", Json.num 4)]) = Except.ok [] :=
  parse_missing_cells_returns_empty [("nbformat", Json.num 4)] rfl

/-!  Claim C7. -/

/-- C7: the extraction is a pure function of the document, so running it
twice on the same unmodified document yields identical result sequences in
the same order; there is no dependence on state outside the document. -/
theorem parse_deterministic (doc : Json) (r1 r2 : List Entry)
    (h1 : parse_jupyter_notebook doc = Except.ok r1)
    (h2 : parse_jupyter_notebook doc = Except.ok r2) : r1 = r2 := by
  rw [h1] at h2
  injection h2

/-- Witness for C7 at the worked scenario of the specification. -/
theorem parse_deterministic_witness :
    ([{ title := "Compute Sum", output := "2" }] : List Entry)
      = [{ title := "Compute Sum", output := "2" }] :=
  parse_deterministic
    (Json.obj [("cells", Json.arr [Json.obj [("cell_type", Json.str "code"),
      ("source", Json.str "\"\"\"Compute Sum\nAdds two numbers\n\"\"\"\nprint(1+1)"),
      ("outputs", Json.arr [Json.obj [("output_type", Json.str "stream"),
        ("text", Json.arr [Json.str "2\n"])]])]])])
    _ _ rfl rfl

/-!  Claim C5. -/

/-- C5: an error record with a non-empty traceback contributes the
traceback lines joined with a newline as one fragment; in the concrete
document with traceback lines Traceback (most recent call last): and
ValueError: bad together with a valid title, the extracted output field is
those two lines joined with a newline. -/
theorem error_traceback_joined :
    (∀ ts : List String, ts ≠ [] →
      outputFragments (Json.obj [("output_type", Json.str "error"),
          ("traceback", Json.arr (ts.map Json.str))])
        = Except.ok [Json.str (String.intercalate "\n" ts)]) ∧
    parse_jupyter_notebook (Json.obj [("cells", Json.arr [Json.obj [("cell_type", Json.str "code"),
        ("source", Json.arr [Json.str "\"\"\"My Cell\n", Json.str "\"\"\"\n", Json.str "1/0\n"]),
        ("outputs", Json.arr [Json.obj [("output_type", Json.str "error"),
          ("traceback", Json.arr [Json.str "Traceback (most recent call last):",
            Json.str "ValueError: bad"])]])]])])
      = Except.ok [Entry.mk "My Cell" "Traceback (most recent call last):\nValueError: bad"] := by
  constructor
  · intro ts hne
    obtain ⟨t, ts2, rfl⟩ : ∃ t ts2, ts = t :: ts2 := by
      cases ts with
      | nil => exact absurd rfl hne
      | cons a b => exact ⟨a, b, rfl⟩
    show (match joinJsonSep "\n" ((t :: ts2).map Json.str) with
          | Except.error e => Except.error e
          | Except.ok s => Except.ok [Json.str s])
        = Except.ok [Json.str (String.intercalate "\n" (t :: ts2))]
    rw [joinJsonSep_map_str "\n" (t :: ts2)]
  · rfl

/-- Witness for C5 at a concrete two-line traceback. -/
theorem error_traceback_joined_witness :
    outputFragments (Json.obj [("output_type", Json.str "error"),
        ("traceback", Json.arr [Json.str "A", Json.str "B"])])
      = Except.ok [Json.str "A\nB"] := by
  have h := error_traceback_joined.1 ["A", "B"] (by decide)
  exact h

/-!  Claim C6. -/

/-- C6: extract_output_from_outputs concatenates the accumulated fragments
with no separator, trims leading and trailing whitespace, then strips ANSI
escape sequences, in that order; with no records, or when every fragment is
the empty string, it returns the empty string as a valid non-error
outcome. -/
theorem extract_output_order (os : List Json) :
    (∀ texts raw, collectOutputTexts os = Except.ok texts →
      joinJsonSep "" texts = Except.ok raw →
      extract_output_from_outputs (Json.arr os)
        = Except.ok (remove_ansi_codes (pyStrip raw))) ∧
    extract_output_from_outputs (Json.arr []) = Except.ok "" ∧
    (∀ texts, collectOutputTexts os = Except.ok texts → (∀ x ∈ texts, x = Json.str "") →
      extract_output_from_outputs (Json.arr os) = Except.ok "") := by
  refine ⟨?_, rfl, ?_⟩
  · intro texts raw h1 h2
    simp only [extract_output_from_outputs]
    rw [h1]
    show (match joinJsonSep "" texts with
          | Except.error e => Except.error e
          | Except.ok raw => Except.ok (remove_ansi_codes (pyStrip raw)))
        = Except.ok (remove_ansi_codes (pyStrip raw))
    rw [h2]
  · intro texts h1 hall
    simp only [extract_output_from_outputs]
    rw [h1]
    show (match joinJsonSep "" texts with
          | Except.error e => Except.error e
          | Except.ok raw => Except.ok (remove_ansi_codes (pyStrip raw)))
        = Except.ok ""
    rw [joinJsonSep_all_empty texts hall]
    rfl

/-- Witness for C6 at one stream record with surrounding whitespace and an
embedded ANSI color code. -/
theorem extract_output_order_witness :
    extract_output_from_outputs (Json.arr [Json.obj [("output_type", Json.str "stream"),
        ("text", Json.arr [Json.str "  red\x1b[31m text  "])]])
      = Except.ok "red text" := by
  have h := (extract_output_order [Json.obj [("output_type", Json.str "stream"),
      ("text", Json.arr [Json.str "  red\x1b[31m text  "])]]).1
    [Json.str "  red\x1b[31m text  "] "  red\x1b[31m text  " rfl rfl
  rw [h]
  rfl

/-!  Claim C10. -/

/-- C10: an output record that lacks the output_type key entirely is
treated as an unrecognized type: it raises no error, contributes no
fragment, and removing it from the record sequence does not change the
extracted output. -/
theorem missing_output_type_skipped (fields : List (String × Json))
    (h : fields.lookup "output_type" = none) :
    outputFragments (Json.obj fields) = Except.ok [] ∧
    ∀ os1 os2, extract_output_from_outputs (Json.arr (os1 ++ Json.obj fields :: os2))
      = extract_output_from_outputs (Json.arr (os1 ++ os2)) := by
  have hfrag : outputFragments (Json.obj fields) = Except.ok [] := by
    unfold outputFragments
    simp only [pyGet]
    rw [h]
    rfl
  refine ⟨hfrag, ?_⟩
  intro os1 os2
  simp only [extract_output_from_outputs]
  rw [collect_skip os1 os2 _ hfrag]

/-- Witness for C10: a record with only an unrelated key is skipped and the
remaining stream record still determines the output. -/
theorem missing_output_type_skipped_witness :
    outputFragments (Json.obj [("foo", Json.str "x")]) = Except.ok [] ∧
    extract_output_from_outputs (Json.arr [Json.obj [("foo", Json.str "x")],
        Json.obj [("output_type", Json.str "stream"), ("text", Json.arr [Json.str "ok\n"])]])
      = Except.ok "ok" := by
  have h := missing_output_type_skipped [("foo", Json.str "x")] rfl
  refine ⟨h.1, ?_⟩
  have h2 := h.2 [] [Json.obj [("output_type", Json.str "stream"),
    ("text", Json.arr [Json.str "ok\n"])]]
  simp only [List.nil_append] at h2
  rw [h2]
  rfl

/-!  Claim C8. -/

/-- C8 counterexample: on the path a.ipynb.ipynb the default output path is
a_parsed.json_parsed.json, because every occurrence of .ipynb is replaced,
not a.ipynb_parsed.json as replacing only the recognized final suffix would
give; this refutes the claim for this input. -/
theorem default_output_path_counterexample :
    default_output_path "a.ipynb.ipynb" = "a_parsed.json_parsed.json" ∧
    default_output_path "a.ipynb.ipynb" ≠ "a.ipynb_parsed.json" := by
  exact ⟨rfl, by decide⟩

/-- C8 amended: the default target location replaces every occurrence of
the substring .ipynb in the source name with _parsed.json; in particular,
when .ipynb occurs only once, as the final suffix, the suffix is replaced
and the rest of the path is unchanged. -/
theorem default_output_path_suffix (pre : List Char)
    (h : ∀ i, i < pre.length →
      (".ipynb".data).isPrefixOf ((pre ++ ".ipynb".data).drop i) = false) :
    default_output_path (String.mk (pre ++ ".ipynb".data))
      = String.mk (pre ++ "_parsed.json".data) := by
  show String.mk (replaceFuel ".ipynb".data "_parsed.json".data
      (pre ++ ".ipynb".data).length (pre ++ ".ipynb".data)) = _
  rw [replaceFuel_suffix ".ipynb".data "_parsed.json".data (by decide) pre
    (pre ++ ".ipynb".data).length (Nat.le_refl _) h]

/-- Witness for C8 amended at the path nb.ipynb. -/
theorem default_output_path_suffix_witness :
    default_output_path "nb.ipynb" = "nb_parsed.json" := by
  have h := default_output_path_suffix ("nb".data) (by decide)
  exact h

/-!  Title machinery lemmas. -/

/-- takeLine returns exactly the newline-free block before a newline. -/
theorem takeLine_eq_some_iff (l : List Char) :
    ∀ t, takeLine l = some t ↔ '\n' ∉ t ∧ ∃ r, l = t ++ '\n' :: r := by
  induction l with
  | nil =>
    intro t
    constructor
    · intro h; cases h
    · rintro ⟨-, r, hr⟩
      exact absurd hr.symm (by simp)
  | cons c rest ih =>
    intro t
    by_cases hc : c = '\n'
    · subst hc
      simp only [takeLine, if_pos rfl]
      constructor
      · intro h
        injection h with h
        subst h
        exact ⟨by simp, rest, rfl⟩
      · rintro ⟨hnl, r, hr⟩
        cases t with
        | nil => rfl
        | cons a as =>
          injection hr with h1 h2
          exact absurd (by rw [h1]; exact List.mem_cons_self a as) hnl
    · simp only [takeLine, if_neg hc]
      constructor
      · intro h
        rcases Option.map_eq_some'.mp h with ⟨t0, ht0, rfl⟩
        rcases (ih t0).mp ht0 with ⟨hnl0, r, hr⟩
        refine ⟨?_, r, by rw [hr]; rfl⟩
        simp only [List.mem_cons, not_or]
        exact ⟨fun hh => hc hh.symm, hnl0⟩
      · rintro ⟨hnl, r, hr⟩
        cases t with
        | nil =>
          injection hr with h1 h2
          exact absurd h1 hc
        | cons a as =>
          injection hr with h1 h2
          subst h1
          have htl : takeLine rest = some as :=
            (ih as).mpr ⟨fun hh => hnl (List.mem_cons_of_mem _ hh), r, h2⟩
          rw [htl]
          rfl

/-- headTitle finds exactly the groups the docstring regex matches at the
head of the string. -/
theorem headTitle_eq_some_iff (l t : List Char) :
    headTitle l = some t ↔ matchHead l t := by
  rw [headTitle.eq_def]
  split
  next rest =>
    constructor
    · intro h
      split at h
      next c cs heq =>
        injection h with h
        subst h
        rcases (takeLine_eq_some_iff rest (c :: cs)).mp heq with ⟨hnl, r, hr⟩
        exact ⟨by simp, hnl, r, by rw [hr]⟩
      next => cases h
    · rintro ⟨hne, hnl, r, hr⟩
      have hrest : rest = t ++ '\n' :: r := by simpa using hr
      have htl : takeLine rest = some t := (takeLine_eq_some_iff rest t).mpr ⟨hnl, r, hrest⟩
      rw [htl]
      cases t with
      | nil => exact absurd rfl hne
      | cons c cs => rfl
  next hno =>
    constructor
    · intro h; cases h
    · rintro ⟨hne, hnl, r, hr⟩
      exact absurd hr (by intro hh; exact hno (t ++ '\n' :: r) hh)

/-- When the regex matches at no position, the search fails. -/
theorem findTitle_eq_none_of (l : List Char) (h : ∀ i, headTitle (l.drop i) = none) :
    findTitle l = none := by
  induction l with
  | nil => rfl
  | cons c rest ih =>
    have h0 := h 0
    simp only [List.drop_zero] at h0
    simp only [findTitle]
    rw [h0]
    exact ih (fun i => by have hi := h (i + 1); simpa using hi)

/-- The search returns the group of the first matching position. -/
theorem findTitle_eq_some_of (l : List Char) :
    ∀ (i : Nat) (t : List Char), headTitle (l.drop i) = some t →
      (∀ j, j < i → headTitle (l.drop j) = none) → findTitle l = some t := by
  induction l with
  | nil =>
    intro i t hi _
    rw [List.drop_nil] at hi
    simp [headTitle] at hi
  | cons c rest ih =>
    intro i t hi hfirst
    cases i with
    | zero =>
      simp only [List.drop_zero] at hi
      simp only [findTitle]
      rw [hi]
    | succ n =>
      have h0 := hfirst 0 (Nat.succ_pos n)
      simp only [List.drop_zero] at h0
      simp only [findTitle]
      rw [h0]
      exact ih n t (by simpa using hi) (fun j hj => by
        have hji := hfirst (j + 1) (Nat.succ_lt_succ hj)
        simpa using hji)

/-- Stripping a string of whitespace characters leaves the empty string. -/
theorem pyStrip_all_space (ws : List Char) (h : ∀ c ∈ ws, isPySpace c = true) :
    pyStrip (String.mk ws) = "" := by
  show String.mk (((ws.dropWhile isPySpace).reverse.dropWhile isPySpace).reverse) = ""
  rw [List.dropWhile_eq_nil_iff.mpr h]
  rfl

/-!  Claim C3. -/

/-- C3: extract_title_from_source returns the whitespace-trimmed group of
the first position where the docstring regex matches, three double quotes
followed by at least one non-newline character and then a newline; later
matches are ignored, and when no position matches it returns the empty
string rather than an error. -/
theorem extract_title_first_match (l : List Char) :
    ((∀ i t, ¬ titleMatchAt l i t) → extract_title_from_source (String.mk l) = "") ∧
    (∀ i t, titleMatchAt l i t → (∀ j t2, j < i → ¬ titleMatchAt l j t2) →
      extract_title_from_source (String.mk l) = pyStrip (String.mk t)) := by
  constructor
  · intro h
    have hnone : findTitle l = none := by
      apply findTitle_eq_none_of
      intro i
      cases hh : headTitle (l.drop i) with
      | none => rfl
      | some t => exact absurd ((headTitle_eq_some_iff _ t).mp hh) (h i t)
    show (match findTitle l with
          | some t => pyStrip (String.mk t)
          | none => "") = ""
    rw [hnone]
  · intro i t hm hfirst
    have hs : headTitle (l.drop i) = some t := (headTitle_eq_some_iff _ t).mpr hm
    have hn : ∀ j, j < i → headTitle (l.drop j) = none := by
      intro j hj
      cases hh : headTitle (l.drop j) with
      | none => rfl
      | some t2 => exact absurd ((headTitle_eq_some_iff _ t2).mp hh) (hfirst j t2 hj)
    have hf := findTitle_eq_some_of l i t hs hn
    show (match findTitle l with
          | some t => pyStrip (String.mk t)
          | none => "") = pyStrip (String.mk t)
    rw [hf]

/-- Witness for C3: the first docstring wins and is trimmed; a second
docstring later in the source is ignored. -/
theorem extract_title_first_match_witness :
    extract_title_from_source "print(0)\n\"\"\"First Title\nrest\n\"\"\"Second\n"
      = "First Title" := by
  have hm : titleMatchAt ("print(0)\n\"\"\"First Title\nrest\n\"\"\"Second\n".data) 9
      ("First Title".data) := by
    refine ⟨by decide, by decide, ("rest\n\"\"\"Second\n".data), by decide⟩
  have hfirst : ∀ j t2, j < 9 →
      ¬ titleMatchAt ("print(0)\n\"\"\"First Title\nrest\n\"\"\"Second\n".data) j t2 := by
    intro j t2 hj hm2
    have h2 := (headTitle_eq_some_iff _ t2).mpr hm2
    have hnone : headTitle (("print(0)\n\"\"\"First Title\nrest\n\"\"\"Second\n".data).drop j)
        = none := by
      interval_cases j <;> rfl
    rw [hnone] at h2
    cases h2
  exact (extract_title_first_match _).2 9 _ hm hfirst

/-!  Claim C9. -/

/-- C9: a source containing three double quotes followed by a non-empty
line and a newline yields that line as the title even when the triple
quoted block is never closed: no double quote at all occurs after the
opening, so no closing delimiter exists, and the title is still
extracted. -/
theorem unclosed_docstring_title (pre t rest : List Char)
    (hpre : ∀ j t2, j < pre.length →
      ¬ titleMatchAt (pre ++ '"' :: '"' :: '"' :: (t ++ '\n' :: rest)) j t2)
    (ht : t ≠ []) (hnl : '\n' ∉ t) (_hq1 : '"' ∉ t) (_hq2 : '"' ∉ rest) :
    extract_title_from_source (String.mk (pre ++ '"' :: '"' :: '"' :: (t ++ '\n' :: rest)))
      = pyStrip (String.mk t) := by
  have hs : headTitle ((pre ++ '"' :: '"' :: '"' :: (t ++ '\n' :: rest)).drop pre.length)
      = some t := by
    rw [List.drop_left]
    exact (headTitle_eq_some_iff _ t).mpr ⟨ht, hnl, rest, rfl⟩
  have hn : ∀ j, j < pre.length →
      headTitle ((pre ++ '"' :: '"' :: '"' :: (t ++ '\n' :: rest)).drop j) = none := by
    intro j hj
    cases hh : headTitle ((pre ++ '"' :: '"' :: '"' :: (t ++ '\n' :: rest)).drop j) with
    | none => rfl
    | some t2 => exact absurd ((headTitle_eq_some_iff _ t2).mp hh) (hpre j t2 hj)
  have hf := findTitle_eq_some_of _ pre.length t hs hn
  show (match findTitle (pre ++ '"' :: '"' :: '"' :: (t ++ '\n' :: rest)) with
        | some t => pyStrip (String.mk t)
        | none => "") = pyStrip (String.mk t)
  rw [hf]

/-- Witness for C9 at a source whose docstring is never closed. -/
theorem unclosed_docstring_title_witness :
    extract_title_from_source "\"\"\"Hello World\nx = 1" = "Hello World" := by
  have h := unclosed_docstring_title [] ("Hello World".data) ("x = 1".data)
    (fun j t2 hj => absurd hj (by simp)) (by decide) (by decide) (by decide) (by decide)
  exact h

/-!  Claim C4. -/

/-- C4 counterexample: a code cell whose source begins with a docstring
whose first line is blank, the triple quote followed immediately by a
newline, does not always get an empty title: the search continues and a
later docstring supplies the title Second title, and with a non-empty
output the cell appears in the result, contradicting the claim. -/
theorem blank_first_line_counterexample :
    extract_title_from_source "\"\"\"\n\"\"\"Second title\nprint(1)\n" = "Second title" ∧
    parse_jupyter_notebook (Json.obj [("cells", Json.arr [Json.obj [("cell_type", Json.str "code"),
        ("source", Json.str "\"\"\"\n\"\"\"Second title\nprint(1)\n"),
        ("outputs", Json.arr [Json.obj [("output_type", Json.str "stream"),
          ("text", Json.arr [Json.str "2\n"])]])]])])
      = Except.ok [Entry.mk "Second title" "2"] := ⟨rfl, rfl⟩

/-- C4 amended: when the blank first line of the leading docstring consists
of at least one whitespace character before the newline, the regex matches
it, the trimmed title is empty, and the cell is excluded: processCell never
emits an entry for it.  When the triple quote is followed immediately by a
newline the position does not match at all and a later docstring in the
cell may still supply a non-empty title. -/
theorem blank_whitespace_first_line_excluded (ws rest : List Char) (outputs : Json)
    (hws : ws ≠ []) (hsp : ∀ c ∈ ws, isPySpace c = true) (hnl : '\n' ∉ ws) :
    extract_title_from_source (String.mk ('"' :: '"' :: '"' :: (ws ++ '\n' :: rest))) = "" ∧
    ∀ r, processCell (Json.obj [("cell_type", Json.str "code"),
        ("source", Json.str (String.mk ('"' :: '"' :: '"' :: (ws ++ '\n' :: rest)))),
        ("outputs", outputs)]) = Except.ok r → r = none := by
  have htitle : extract_title_from_source
      (String.mk ('"' :: '"' :: '"' :: (ws ++ '\n' :: rest))) = "" := by
    have hs : headTitle (('"' :: '"' :: '"' :: (ws ++ '\n' :: rest)).drop 0) = some ws := by
      rw [List.drop_zero]
      exact (headTitle_eq_some_iff _ ws).mpr ⟨hws, hnl, rest, rfl⟩
    have hf := findTitle_eq_some_of _ 0 ws hs (fun j hj => absurd hj (Nat.not_lt_zero j))
    show (match findTitle ('"' :: '"' :: '"' :: (ws ++ '\n' :: rest)) with
          | some t => pyStrip (String.mk t)
          | none => "") = ""
    rw [hf]
    exact pyStrip_all_space ws hsp
  refine ⟨htitle, ?_⟩
  intro r h
  have h2 : (match extract_output_from_outputs outputs with
             | Except.error e => Except.error e
             | Except.ok output_text =>
               Except.ok (guardEntry (extract_title_from_source
                 (String.mk ('"' :: '"' :: '"' :: (ws ++ '\n' :: rest)))) output_text))
      = Except.ok r := h
  cases hout : extract_output_from_outputs outputs with
  | error e => rw [hout] at h2; cases h2
  | ok o =>
    rw [hout] at h2
    injection h2 with h2
    rw [htitle] at h2
    rw [← h2]
    rfl

/-- Witness for C4 amended: one space before the newline disqualifies the
cell. -/
theorem blank_whitespace_first_line_excluded_witness :
    extract_title_from_source "\"\"\" \nx\n" = "" := by
  have h := blank_whitespace_first_line_excluded [' '] ("x\n".data) (Json.arr [])
    (by decide) (by decide) (by decide)
  exact h.1

/-!  Claim C2. -/

/-- C2: for every input document, every entry of a successful extraction
has a non-empty title and a non-empty output; no entry with an empty title
or empty output ever appears in the result. -/
theorem parse_entries_nonempty (doc : Json) (res : List Entry)
    (h : parse_jupyter_notebook doc = Except.ok res) :
    ∀ e, e ∈ res → e.title ≠ "" ∧ e.output ≠ "" := by
  unfold parse_jupyter_notebook at h
  cases doc with
  | obj fields =>
    simp only [pyGet] at h
    cases hcells : (fields.lookup "cells").getD (Json.arr []) with
    | arr cs =>
      rw [hcells] at h
      exact processCells_nonempty cs res h
    | str s =>
      rw [hcells] at h
      have h2 : (if s.isEmpty = true then Except.ok ([] : List Entry)
          else Except.error PyErr.attributeError) = Except.ok res := h
      split at h2
      · injection h2 with h2; subst h2; intro e he; cases he
      · cases h2
    | obj fs =>
      rw [hcells] at h
      have h2 : (if fs.isEmpty = true then Except.ok ([] : List Entry)
          else Except.error PyErr.attributeError) = Except.ok res := h
      split at h2
      · injection h2 with h2; subst h2; intro e he; cases he
      · cases h2
    | null => rw [hcells] at h; cases h
    | bool b => rw [hcells] at h; cases h
    | num n => rw [hcells] at h; cases h
  | null => simp only [pyGet] at h; cases h
  | bool b => simp only [pyGet] at h; cases h
  | num n => simp only [pyGet] at h; cases h
  | str s => simp only [pyGet] at h; cases h
  | arr es => simp only [pyGet] at h; cases h

/-- Witness for C2 at a concrete one-cell document. -/
theorem parse_entries_nonempty_witness :
    (Entry.mk "T" "out").title ≠ "" ∧ (Entry.mk "T" "out").output ≠ "" := by
  refine parse_entries_nonempty
    (Json.obj [("cells", Json.arr [Json.obj [("cell_type", Json.str "code"),
      ("source", Json.str "\"\"\"T\nx\n\"\"\"\ny"),
      ("outputs", Json.arr [Json.obj [("output_type", Json.str "stream"),
        ("text", Json.arr [Json.str "out"])]])]])])
    [Entry.mk "T" "out"] rfl (Entry.mk "T" "out") ?_
  exact List.mem_singleton.mpr rfl

end NotebookParser
